import Mathlib

/-!
Verification development for the to-do example applications:
the core CRUD service (`todo-app/app`: model, repository, service, schemas)
and the agent tool bridge (`todo-agents/.../tools/todo_tools.py`).

Conventions of the shallow embedding:
* timestamps (`datetime` values) are natural numbers ordered like points in
  time;
* the relational `todos` table is a `List Todo` in insertion order, passed
  and returned explicitly by every operation that reads or mutates it;
* Python `None` is `Option.none`; a Python function that can raise returns
  `Except` / `Option`;
* text is `String`; case-insensitive SQL matching works on the underlying
  character list.
-/

/-- Priority enumeration (`app/models/todo.py` / `app/schemas/todo.py`):
`low`, `medium`, `high`. -/
inductive Priority
  | low
  | medium
  | high
deriving Repr, DecidableEq

/-- The `.value` of an enum member (the stored string). -/
def Priority.value : Priority → String
  | .low => "low"
  | .medium => "medium"
  | .high => "high"

/-- The `Priority(s)` enum constructor: the member whose value is `s`, or
`none` where Python raises `ValueError`. -/
def Priority.fromString (s : String) : Option Priority :=
  if s = "low" then some .low
  else if s = "medium" then some .medium
  else if s = "high" then some .high
  else none

/-- One in-memory row of the `todos` table (`app/models/todo.py`).
The five columns that `TodoRepository.update` can touch are `Option`-typed
because a Python attribute slot can transiently hold `None` between the
`setattr` loop and the flush, regardless of the declared column
nullability (the tool layer assigns exactly such `None`s, see
`TodoUpdate.from_tool_args` below).  The database itself declares
`title`, `completed` and `priority` NOT NULL: `create` and
`toggle_complete` always store proper values in them, and `update` — the
only operation that can write `None` there — raises `IntegrityError` at
commit instead of persisting such a row (see `TodoRepository.update`), so
no committed store ever violates the constraints. -/
structure Todo where
  id : Nat
  title : Option String
  description : Option String
  completed : Option Bool
  priority : Option String
  due_date : Option Nat
  created_at : Nat
  updated_at : Nat
deriving Repr, DecidableEq

/-- The exceptions the repository and service layers can raise:
`fastapi.HTTPException` (`status_code`, `detail`), Python
`AttributeError`, and `sqlalchemy.exc.IntegrityError` (a violated
database constraint at flush/commit time). -/
inductive PyError
  | httpException (status_code : Nat) (detail : String)
  | attributeError (message : String)
  | integrityError (message : String)
deriving Repr, DecidableEq

/-- Python `str(e)` of the exceptions above (Starlette renders an
`HTTPException` as `"{status_code}: {detail}"`; the Python text of the
`AttributeError` quotes the class and attribute names and the
`IntegrityError` text carries driver and statement detail — both are
abbreviated to their stable core here). -/
def PyError.str : PyError → String
  | .httpException status_code detail => toString status_code ++ ": " ++ detail
  | .attributeError message => message
  | .integrityError message => message

/-- `TodoRepository.get_by_id`: `SELECT * FROM todos WHERE id = todo_id`,
returning one row or `None`, never raising. -/
def TodoRepository.get_by_id (store : List Todo) (todo_id : Nat) : Option Todo :=
  store.find? (fun t => t.id == todo_id)

/-- `TodoRepository.create`: inserts a new row.  The store assigns the
fresh primary key `newId` and stamps `created_at`/`updated_at` with the
current time `now` (the model's column defaults). -/
def TodoRepository.create (store : List Todo) (newId now : Nat) (title : String)
    (description : Option String) (completed : Bool) (priority : String)
    (due_date : Option Nat) : List Todo × Todo :=
  let t : Todo :=
    { id := newId, title := some title, description := description,
      completed := some completed, priority := some priority,
      due_date := due_date, created_at := now, updated_at := now }
  (store ++ [t], t)

/-- The lower-cased character sequence of a string (how SQL `ILIKE`
compares text, on the stored characters). -/
def lowerData (s : String) : List Char := s.data.map Char.toLower

/-- SQL LIKE pattern matching over character sequences: `%` matches any
(possibly empty) sequence, `_` matches exactly one character, every other
pattern character matches itself.  No escape character is involved (the
code never escapes the interpolated search string). -/
def likeMatch : List Char → List Char → Bool
  | [], cs => cs.isEmpty
  | p :: ps, cs =>
    if p = '%' then cs.tails.any (fun suf => likeMatch ps suf)
    else
      match cs with
      | [] => false
      | c :: cs' => (if p = '_' then true else p == c) && likeMatch ps cs'

/-- SQL `column ILIKE f"%{search}%"` exactly as the code builds the
pattern (`app/repositories/todo.py` lines 48–49): the search string is
interpolated **unescaped**, so any `%` or `_` inside it acts as a LIKE
wildcard rather than as a literal character; matching is case-insensitive
(both sides lowered); a `NULL` column never matches (`NULL ILIKE x` is not
true). -/
def ilike (column : Option String) (search : String) : Bool :=
  match column with
  | none => false
  | some f => likeMatch ('%' :: (lowerData search ++ ['%'])) (lowerData f)

/-- The filter conjunction assembled in `TodoRepository.get_all`
(`app/repositories/todo.py` lines 44–67): each supplied filter contributes
one conjunct and the conjuncts are combined with `and_`.  Python truthiness
is kept: `if search:` and `if priority:` skip the filter for `None` *and*
for the empty string, while `completed` is compared against `None`
explicitly; the `date_from`/`date_to` bounds on `due_date` are inclusive,
and a `NULL` `due_date` satisfies neither bound. -/
def matchesFilters (search : Option String) (completed : Option Bool)
    (priority : Option String) (date_from date_to : Option Nat) (t : Todo) : Bool :=
  (match search with
   | none => true
   | some s => if s.isEmpty then true else ilike t.title s || ilike t.description s) &&
  (match completed with
   | none => true
   | some c => t.completed == some c) &&
  (match priority with
   | none => true
   | some p => if p.isEmpty then true else t.priority == some p) &&
  (match date_from with
   | none => true
   | some d =>
     match t.due_date with
     | none => false
     | some x => decide (d ≤ x)) &&
  (match date_to with
   | none => true
   | some d =>
     match t.due_date with
     | none => false
     | some x => decide (x ≤ d))

/-- `ORDER BY created_at DESC`: row `a` may precede row `b` when `a` was
created no earlier than `b` (most recent first). -/
def createdDesc (a b : Todo) : Prop := b.created_at ≤ a.created_at

instance : DecidableRel createdDesc :=
  fun a b => Nat.decLe b.created_at a.created_at

instance : IsTotal Todo createdDesc :=
  ⟨fun a b => Nat.le_total b.created_at a.created_at⟩

instance : IsTrans Todo createdDesc :=
  ⟨fun _ _ _ hab hbc => Nat.le_trans hbc hab⟩

/-- `TodoRepository.get_all` (`app/repositories/todo.py` lines 31–74):
apply the filters, count the filtered set with the same filters
(`SELECT count(id)`, and `id` is the non-null primary key, so this counts
the filtered rows), order by `created_at` descending (a stable sort models
the SQL sort), then apply `OFFSET skip LIMIT limit` to the page query
only.  Returns the page together with the total count. -/
def TodoRepository.get_all (store : List Todo) (skip limit : Nat)
    (search : Option String) (completed : Option Bool) (priority : Option String)
    (date_from date_to : Option Nat) : List Todo × Nat :=
  let filtered := store.filter (matchesFilters search completed priority date_from date_to)
  (((List.insertionSort createdDesc filtered).drop skip).take limit, filtered.length)

/-- `app/schemas/todo.py` `TodoUpdate`: every field optional, including
`completed`.  `fields_set` models pydantic's `__fields_set__`: the names of
the keyword arguments that were explicitly passed to the constructor
(pydantic guarantees a field not in this set holds its default `None`, but
nothing below relies on that, so the structure admits any combination). -/
structure TodoUpdate where
  title : Option String
  description : Option String
  priority : Option Priority
  due_date : Option Nat
  completed : Option Bool
  fields_set : List String
deriving Repr, DecidableEq

/-- The dictionary produced by `todo_data.model_dump(exclude_unset=True)`
in `TodoService.update_todo`: a key appears exactly when the field was
explicitly set on the `TodoUpdate`; for each field, the outer `Option` is
key presence and the inner value is the (possibly `None`) field value. -/
structure RawKwargs where
  title : Option (Option String)
  description : Option (Option String)
  priority : Option (Option Priority)
  due_date : Option (Option Nat)
  completed : Option (Option Bool)
deriving Repr, DecidableEq

/-- `model_dump(exclude_unset=True)`. -/
def model_dump_exclude_unset (u : TodoUpdate) : RawKwargs :=
  { title := if u.fields_set.contains "title" then some u.title else none,
    description := if u.fields_set.contains "description" then some u.description else none,
    priority := if u.fields_set.contains "priority" then some u.priority else none,
    due_date := if u.fields_set.contains "due_date" then some u.due_date else none,
    completed := if u.fields_set.contains "completed" then some u.completed else none }

/-- The keyword dictionary after the priority conversion in
`TodoService.update_todo` (lines 61–63): `priority` is turned into its
string `.value` when the key is present *and* truthy; a present-but-`None`
priority stays `None`; an absent key stays absent. -/
structure UpdateKwargs where
  title : Option (Option String)
  description : Option (Option String)
  priority : Option (Option String)
  due_date : Option (Option Nat)
  completed : Option (Option Bool)
deriving Repr, DecidableEq

/-- Lines 61–63 of `TodoService.update_todo`. -/
def convert_priority : Option (Option Priority) → Option (Option String)
  | none => none
  | some none => some none
  | some (some p) => some (some p.value)

/-- The full kwargs dictionary that `TodoService.update_todo` forwards to
`TodoRepository.update`. -/
def to_kwargs (u : TodoUpdate) : UpdateKwargs :=
  let raw := model_dump_exclude_unset u
  { title := raw.title, description := raw.description,
    priority := convert_priority raw.priority,
    due_date := raw.due_date, completed := raw.completed }

/-- The `setattr` loop of `TodoRepository.update` (every kwargs key names
an existing attribute, so `hasattr` is always true for these five), plus
the ORM refreshing `updated_at` on commit: present keys overwrite the
corresponding attribute — even with `None` — and absent keys leave the
attribute untouched. -/
def apply_kwargs (t : Todo) (k : UpdateKwargs) (now : Nat) : Todo :=
  { t with
    title := k.title.getD t.title,
    description := k.description.getD t.description,
    priority := k.priority.getD t.priority,
    due_date := k.due_date.getD t.due_date,
    completed := k.completed.getD t.completed,
    updated_at := now }

/-- Writing the mutated row back: the row keyed by `todo_id` is replaced,
all other rows are untouched. -/
def replaceById (store : List Todo) (todo_id : Nat) (t' : Todo) : List Todo :=
  store.map (fun x => if x.id == todo_id then t' else x)

/-- `TodoRepository.update` (lines 76–87): fetch by id, return `None` when
absent, otherwise apply the kwargs and commit.  The commit flushes the
mutated row to the database, and the `todos` table declares `title`,
`completed` and `priority` NOT NULL (`app/models/todo.py` lines 20, 22,
23): a flush that would store `NULL` in one of those columns raises
`IntegrityError` (message abbreviated) and persists nothing — this is the
only operation able to write `None` into them, since `create` and
`toggle_complete` always store proper values. -/
def TodoRepository.update (store : List Todo) (now todo_id : Nat) (k : UpdateKwargs) :
    Except PyError (List Todo × Option Todo) :=
  match TodoRepository.get_by_id store todo_id with
  | none => .ok (store, none)
  | some t =>
    let t' := apply_kwargs t k now
    if t'.title = none ∨ t'.completed = none ∨ t'.priority = none then
      Except.error (PyError.integrityError "NOT NULL constraint failed")
    else
      Except.ok (replaceById store todo_id t', some t')

/-- `TodoRepository.delete` (lines 89–96): hard delete, boolean success
flag, `false` when the id did not exist. -/
def TodoRepository.delete (store : List Todo) (todo_id : Nat) : List Todo × Bool :=
  match TodoRepository.get_by_id store todo_id with
  | none => (store, false)
  | some _ => (store.filter (fun x => !(x.id == todo_id)), true)

/-- Python `not` applied to the stored `completed` attribute
(`todo.completed = not todo.completed`): `not None` is `True`. -/
def pyNot : Option Bool → Bool
  | none => true
  | some b => !b

/-- `TodoRepository.toggle_complete` (lines 98–106): fetch by id, `None`
when absent, otherwise flip `completed` and commit (the ORM refreshes
`updated_at`). -/
def TodoRepository.toggle_complete (store : List Todo) (now todo_id : Nat) :
    List Todo × Option Todo :=
  match TodoRepository.get_by_id store todo_id with
  | none => (store, none)
  | some t =>
    let t' := { t with completed := some (pyNot t.completed), updated_at := now }
    (replaceById store todo_id t', some t')

/-- The 404 detail template used by every service operation:
`f"Todo with id {todo_id} not found"`. -/
def not_found_detail (todo_id : Nat) : String :=
  "Todo with id " ++ toString todo_id ++ " not found"

/-- `app/schemas/todo.py` `TodoCreate` (= `TodoBase`): `title` required,
`description` optional, `priority` defaulting to `medium`, optional
`due_date`.  Note that **no** `completed` field is declared; pydantic
ignores an extra `completed=` keyword at construction and raises
`AttributeError` when the missing attribute is read. -/
structure TodoCreate where
  title : String
  description : Option String := none
  priority : Priority := .medium
  due_date : Option Nat := none
deriving Repr, DecidableEq

/-- `TodoService.create_todo` (`app/services/todo.py` lines 15–23).  The
repository call is built with the keyword `completed=todo_data.completed`,
but `TodoCreate` declares no `completed` field, so evaluating that argument
raises `AttributeError` before `repository.create` is reached: the store is
left unchanged and no record is ever returned. -/
def TodoService.create_todo (store : List Todo) (todo_data : TodoCreate) :
    List Todo × Except PyError Todo :=
  (store, .error (.attributeError "TodoCreate object has no attribute completed"))

/-- `TodoService.get_todo` (lines 25–32): 404 with the templated detail
when the repository reports the id absent.  (`Todo.model_validate` on a
fetched row is the identity on the row's data and is omitted.) -/
def TodoService.get_todo (store : List Todo) (todo_id : Nat) : Except PyError Todo :=
  match TodoRepository.get_by_id store todo_id with
  | none => .error (.httpException 404 (not_found_detail todo_id))
  | some t => .ok t

/-- `TodoService.update_todo` (lines 59–71): dump only the explicitly-set
fields, convert a truthy priority to its string value, forward the kwargs
to the repository, 404 when the id is absent.  A repository exception
(the `IntegrityError` of a NOT NULL violation) is not caught here and
propagates; the store is unchanged in that case. -/
def TodoService.update_todo (store : List Todo) (now todo_id : Nat)
    (todo_data : TodoUpdate) : List Todo × Except PyError Todo :=
  match TodoRepository.update store now todo_id (to_kwargs todo_data) with
  | .error e => (store, .error e)
  | .ok (s, none) => (s, .error (.httpException 404 (not_found_detail todo_id)))
  | .ok (s, some t) => (s, .ok t)

/-- `TodoService.delete_todo` (lines 73–79): 404 when the repository
reports failure, no payload on success. -/
def TodoService.delete_todo (store : List Todo) (todo_id : Nat) :
    List Todo × Except PyError Unit :=
  match TodoRepository.delete store todo_id with
  | (s, false) => (s, .error (.httpException 404 (not_found_detail todo_id)))
  | (s, true) => (s, .ok ())

/-- `TodoService.toggle_complete` (lines 81–88): 404 when the id is
absent, otherwise the flipped record. -/
def TodoService.toggle_complete (store : List Todo) (now todo_id : Nat) :
    List Todo × Except PyError Todo :=
  match TodoRepository.toggle_complete store now todo_id with
  | (s, none) => (s, .error (.httpException 404 (not_found_detail todo_id)))
  | (s, some t) => (s, .ok t)

/-- The `TodoList` response wrapper (`app/schemas/todo.py`). -/
structure TodoList where
  todos : List Todo
  total : Nat
deriving Repr, DecidableEq

/-- `TodoService.list_todos` (lines 34–57): convert the priority enum to
its string value (`priority.value if priority else None`), delegate to
`get_all`, and wrap the pair. -/
def TodoService.list_todos (store : List Todo) (skip limit : Nat)
    (search : Option String) (completed : Option Bool) (priority : Option Priority)
    (date_from date_to : Option Nat) : TodoList :=
  let priority_str := priority.map Priority.value
  let r := TodoRepository.get_all store skip limit search completed priority_str
    date_from date_to
  { todos := r.1, total := r.2 }

/-- The three `datetime` parsers from the Python standard library used by
the agent tool layer, taken as parameters of the embedding (they are
library code, not code of this repository): `datetime.fromisoformat`, and
`datetime.strptime` with the fixed formats `%Y-%m-%d` and
`%Y-%m-%d %H:%M:%S` respectively.  Each returns `none` exactly where the
Python call raises `ValueError`. -/
structure DateParsers where
  fromisoformat : String → Option Nat
  strptime_date : String → Option Nat
  strptime_datetime : String → Option Nat

/-- The due-date parsing block of `todo_tools.py` (lines 36–47 in
`create_todo`, repeated verbatim at lines 120–132 in `update_todo`):
`parsed_due_date` starts as `None`; if a truthy date string was supplied,
try `fromisoformat` on the string with `Z` replaced by `+00:00`; on
`ValueError` try the format `%Y-%m-%d`, then `%Y-%m-%d %H:%M:%S`; when
every attempt fails `parsed_due_date` simply remains `None` and execution
continues. -/
def parse_due_date (P : DateParsers) (due_date : Option String) : Option Nat :=
  match due_date with
  | none => none
  | some s =>
    if s.isEmpty then none
    else
      match P.fromisoformat (s.replace "Z" "+00:00") with
      | some d => some d
      | none =>
        match P.strptime_date s with
        | some d => some d
        | none =>
          match P.strptime_datetime s with
          | some d => some d
          | none => none

/-- Lines 49–51 of `todo_tools.py` (`create_todo` only):
`if priority not in ["low", "medium", "high"]: priority = "medium"`. -/
def coerce_priority (priority : String) : String :=
  if ["low", "medium", "high"].contains priority then priority else "medium"

/-- Payload returned by a single-record agent tool: the serialized record
(`todo.model_dump()`), a `{"success": True, "message": ...}`
acknowledgement (delete), or an `{"error": ...}` payload. -/
inductive ToolResult
  | ok (todo : Todo)
  | success (message : String)
  | error (message : String)
deriving Repr, DecidableEq

/-- Payload returned by the `list_todos` tool: the serialized records
(without the total count), or a one-element list holding an
`{"error": ...}` payload, modelled by the error constructor. -/
inductive ListToolResult
  | ok (todos : List Todo)
  | error (message : String)
deriving Repr, DecidableEq

/-- `TodoAppService.create_todo` (`todo_tools.py` lines 30–68): parse the
optional date string, coerce an unrecognized priority to `"medium"`, build
the `TodoCreate` and call the service inside a `try`/`except` that turns
any exception into an `{"error": ...}` payload.  Two notes:
* the Python call also passes `completed=False` to `TodoCreate`; pydantic
  silently drops the extra keyword, so it does not appear here;
* `Priority(priority)` cannot raise after the coercion, so the
  `.getD .medium` default is never taken. -/
def TodoAppService.create_todo (P : DateParsers) (store : List Todo)
    (title : String) (description : Option String) (priority : String)
    (due_date : Option String) : List Todo × ToolResult :=
  let parsed_due_date := parse_due_date P due_date
  let priority2 := coerce_priority priority
  let todo_data : TodoCreate :=
    { title := title, description := description,
      priority := (Priority.fromString priority2).getD .medium,
      due_date := parsed_due_date }
  match TodoService.create_todo store todo_data with
  | (s, .error e) => (s, .error ("Failed to create todo: " ++ e.str))
  | (s, .ok t) => (s, .ok t)

/-- The invalid-priority error payload of the `list_todos` and
`update_todo` tools (the Python text quotes the three member names; the
quotes are dropped here). -/
def invalid_priority_message (p : String) : String :=
  "Invalid priority: " ++ p ++ ". Must be low, medium, or high"

/-- `TodoAppService.list_todos` (lines 70–98): a truthy priority string
must name an enum member, otherwise the tool answers with an
`{"error": "Invalid priority..."}` payload *before* calling the service;
otherwise the service is called with `skip=0, limit=100` and only the
records (not the total) are returned. -/
def TodoAppService.list_todos (store : List Todo) (completed : Option Bool)
    (priority : Option String) (search : Option String) : ListToolResult :=
  match priority with
  | some p =>
    if p.isEmpty then
      .ok (TodoService.list_todos store 0 100 search completed none none none).todos
    else
      match Priority.fromString p with
      | none => .error (invalid_priority_message p)
      | some pe =>
        .ok (TodoService.list_todos store 0 100 search completed (some pe) none none).todos
  | none => .ok (TodoService.list_todos store 0 100 search completed none none none).todos

/-- `TodoAppService.get_todo` (lines 100–110): call the service, convert a
raised exception into an error payload. -/
def TodoAppService.get_todo (store : List Todo) (todo_id : Nat) : ToolResult :=
  match TodoService.get_todo store todo_id with
  | .error e => .error ("Failed to get todo: " ++ e.str)
  | .ok t => .ok t

/-- The `TodoUpdate(...)` construction at lines 146–152 of
`todo_tools.py`: **all five** optional parameters are passed explicitly as
keyword arguments, so pydantic records all five fields as set — a
parameter the tool caller omitted arrives as an explicitly-set `None`. -/
def TodoUpdate.from_tool_args (title description : Option String)
    (completed : Option Bool) (priority : Option Priority)
    (due_date : Option Nat) : TodoUpdate :=
  { title := title, description := description, priority := priority,
    due_date := due_date, completed := completed,
    fields_set := ["title", "description", "completed", "priority", "due_date"] }

/-- Tail of `TodoAppService.update_todo` after the priority validation:
build the `TodoUpdate` from the tool arguments, call the service, convert
a raised exception into an error payload. -/
def TodoAppService.update_go (store : List Todo) (now todo_id : Nat)
    (title description : Option String) (completed : Option Bool)
    (priority_enum : Option Priority) (parsed_due_date : Option Nat) :
    List Todo × ToolResult :=
  let update_data :=
    TodoUpdate.from_tool_args title description completed priority_enum parsed_due_date
  match TodoService.update_todo store now todo_id update_data with
  | (s, .error e) => (s, .error ("Failed to update todo: " ++ e.str))
  | (s, .ok t) => (s, .ok t)

/-- `TodoAppService.update_todo` (lines 112–157): parse the optional date
string (silently dropping it on failure), reject a truthy unrecognized
priority with an `{"error": "Invalid priority..."}` payload, then build
the update and call the service inside the catch-all. -/
def TodoAppService.update_todo (P : DateParsers) (store : List Todo)
    (now todo_id : Nat) (title description : Option String)
    (completed : Option Bool) (priority : Option String)
    (due_date : Option String) : List Todo × ToolResult :=
  let parsed_due_date := parse_due_date P due_date
  match priority with
  | some p =>
    if p.isEmpty then
      TodoAppService.update_go store now todo_id title description completed none
        parsed_due_date
    else
      match Priority.fromString p with
      | none => (store, .error (invalid_priority_message p))
      | some pe =>
        TodoAppService.update_go store now todo_id title description completed (some pe)
          parsed_due_date
  | none =>
    TodoAppService.update_go store now todo_id title description completed none
      parsed_due_date

/-- `TodoAppService.delete_todo` (lines 159–169): acknowledge with a
`{"success": True, "message": ...}` payload, or convert the raised
exception into an error payload. -/
def TodoAppService.delete_todo (store : List Todo) (todo_id : Nat) :
    List Todo × ToolResult :=
  match TodoService.delete_todo store todo_id with
  | (s, .error e) => (s, .error ("Failed to delete todo: " ++ e.str))
  | (s, .ok _) => (s, .success ("Todo " ++ toString todo_id ++ " deleted successfully"))

/-- A parser bundle in which every strategy fails, for evaluating the
tools on concrete unparsable inputs. -/
def noParsers : DateParsers :=
  { fromisoformat := fun _ => none,
    strptime_date := fun _ => none,
    strptime_datetime := fun _ => none }

/-! ## Concrete records used by witnesses -/

/-- A stored record as `create` produces it: id 1, a title, a description,
not completed, medium priority, created at time 1. -/
def witnessTodo : Todo :=
  { id := 1, title := some "Original", description := some "Keep me",
    completed := some false, priority := some "medium", due_date := none,
    created_at := 1, updated_at := 1 }

/-- A PATCH-style update supplying only the title. -/
def titleOnlyUpdate : TodoUpdate :=
  { title := some "New title", description := none, priority := none,
    due_date := none, completed := none, fields_set := ["title"] }

/-- `witnessTodo` after `titleOnlyUpdate` at time 5. -/
def titleOnlyUpdated : Todo :=
  { witnessTodo with title := some "New title", updated_at := 5 }

/-! ## Theorems -/

/-- C1: the spec states that for every valid creation input the service
operation `create_todo` returns a record with `completed = false` and the
supplied (or default `"medium"`) priority, and in particular that creating
from `{title: "Minimal Todo"}` succeeds.  The code instead raises
`AttributeError` on every creation input — `create_todo` reads
`todo_data.completed` but the `TodoCreate` schema declares no `completed`
field — so the literal check fails: no record is created and no priority
or completed value is ever returned.  The repository's own service test
(`test_create_todo_with_minimal_data`) asserts the behavior the spec
describes, so the code contradicts its own test suite. -/
theorem c1_create_todo_attribute_error :
    TodoService.create_todo [] { title := "Minimal Todo" } =
      ([], .error (.attributeError "TodoCreate object has no attribute completed")) :=
  rfl

/-- C2: for every id absent from the store, each of `get_todo`,
`update_todo`, `delete_todo` and `toggle_complete` fails with an
`HTTPException` of status 404 whose detail is the template
`"Todo with id {id} not found"` instantiated with the requested id (so the
detail contains the rendered id and the substring `"not found"`), none of
them returns a record, and none mutates the store. -/
theorem c2_missing_id_yields_404 (store : List Todo) (now todo_id : Nat)
    (u : TodoUpdate) (h : TodoRepository.get_by_id store todo_id = none) :
    TodoService.get_todo store todo_id =
      .error (.httpException 404 (not_found_detail todo_id)) ∧
    TodoService.update_todo store now todo_id u =
      (store, .error (.httpException 404 (not_found_detail todo_id))) ∧
    TodoService.delete_todo store todo_id =
      (store, .error (.httpException 404 (not_found_detail todo_id))) ∧
    TodoService.toggle_complete store now todo_id =
      (store, .error (.httpException 404 (not_found_detail todo_id))) ∧
    (toString todo_id).data <:+: (not_found_detail todo_id).data ∧
    "not found".data <:+: (not_found_detail todo_id).data := by
  refine ⟨?_, ?_, ?_, ?_, ?_, ?_⟩
  · simp [TodoService.get_todo, h]
  · simp [TodoService.update_todo, TodoRepository.update, h]
  · simp [TodoService.delete_todo, TodoRepository.delete, h]
  · simp [TodoService.toggle_complete, TodoRepository.toggle_complete, h]
  · exact ⟨"Todo with id ".data, " not found".data, by
      simp [not_found_detail, String.data_append]⟩
  · exact ⟨"Todo with id ".data ++ (toString todo_id).data ++ [' '], [], by
      simp [not_found_detail, String.data_append]⟩

/-- Witness for C2 at the literal input of the spec: id 999 against the
empty store. -/
theorem c2_missing_id_yields_404_witness :
    TodoService.get_todo [] 999 =
      .error (.httpException 404 (not_found_detail 999)) ∧
    "not found".data <:+: (not_found_detail 999).data := by
  have h := c2_missing_id_yields_404 [] 0 999
    { title := none, description := none, priority := none, due_date := none,
      completed := none, fields_set := [] } rfl
  exact ⟨h.1, h.2.2.2.2.2⟩

/-- C3: partial-update semantics of the service layer.  For an existing
record, `update_todo` succeeds and the updated record agrees with the old
one on every field whose key the caller did not explicitly supply
(`exclude_unset`), with only `updated_at` refreshed; `id` and `created_at`
are never touched. -/
theorem c3_partial_update_frame (store : List Todo) (now todo_id : Nat)
    (u : TodoUpdate) (old upd : Todo)
    (hold : TodoRepository.get_by_id store todo_id = some old)
    (hupd : (TodoService.update_todo store now todo_id u).2 = .ok upd) :
    (u.fields_set.contains "title" = false → upd.title = old.title) ∧
    (u.fields_set.contains "description" = false → upd.description = old.description) ∧
    (u.fields_set.contains "priority" = false → upd.priority = old.priority) ∧
    (u.fields_set.contains "due_date" = false → upd.due_date = old.due_date) ∧
    (u.fields_set.contains "completed" = false → upd.completed = old.completed) ∧
    upd.id = old.id ∧ upd.created_at = old.created_at := by
  have hupd' : upd = apply_kwargs old (to_kwargs u) now := by
    simp only [TodoService.update_todo, TodoRepository.update, hold] at hupd
    by_cases hC : (apply_kwargs old (to_kwargs u) now).title = none ∨
        (apply_kwargs old (to_kwargs u) now).completed = none ∨
        (apply_kwargs old (to_kwargs u) now).priority = none
    · rw [if_pos hC] at hupd
      simp at hupd
    · rw [if_neg hC] at hupd
      simpa using hupd.symm
  subst hupd'
  refine ⟨fun ht => ?_, fun hd => ?_, fun hp => ?_, fun hdd => ?_, fun hc => ?_, rfl, rfl⟩
  · have ht' : "title" ∉ u.fields_set := by simpa using ht
    simp [apply_kwargs, to_kwargs, model_dump_exclude_unset, ht']
  · have hd' : "description" ∉ u.fields_set := by simpa using hd
    simp [apply_kwargs, to_kwargs, model_dump_exclude_unset, hd']
  · have hp' : "priority" ∉ u.fields_set := by simpa using hp
    simp [apply_kwargs, to_kwargs, model_dump_exclude_unset, convert_priority, hp']
  · have hdd' : "due_date" ∉ u.fields_set := by simpa using hdd
    simp [apply_kwargs, to_kwargs, model_dump_exclude_unset, hdd']
  · have hc' : "completed" ∉ u.fields_set := by simpa using hc
    simp [apply_kwargs, to_kwargs, model_dump_exclude_unset, hc']

/-- Witness for C3: a record with a description, updated only in its
title, keeps its description (and priority, due date, completion). -/
theorem c3_partial_update_frame_witness :
    (TodoRepository.get_by_id [witnessTodo] 1 = some witnessTodo) ∧
    ((TodoService.update_todo [witnessTodo] 5 1 titleOnlyUpdate).2 =
      .ok titleOnlyUpdated) ∧
    titleOnlyUpdated.description = witnessTodo.description := by
  have h := c3_partial_update_frame [witnessTodo] 5 1 titleOnlyUpdate witnessTodo
    titleOnlyUpdated (by decide) rfl
  exact ⟨by decide, rfl, h.2.1 (by decide)⟩

/-- C4: the agent tool `update_todo` constructs its `TodoUpdate` with all
five optional parameters passed explicitly, so the `exclude_unset` dump in
the service excludes nothing: every key is present in the dumped
dictionary — a parameter the tool caller omitted is forwarded to
`TodoRepository.update` as an explicitly-set `None` — and the tool layer
has none of the PATCH path's partial-update semantics.  Concretely, on an
existing record: omitting any of `title`, `completed` or `priority` makes
the flush try to store `NULL` in a NOT NULL column, so the update raises
`IntegrityError` (surfaced by the tool as an error payload, see C6)
instead of preserving the stored values; and when those three are all
supplied, the update succeeds but overwrites `description` and `due_date`
with exactly the tool arguments, clobbering omitted nullable fields to
`None`. -/
theorem c4_tool_update_forwards_all_fields (store : List Todo) (now todo_id : Nat)
    (title description : Option String) (completed : Option Bool)
    (priority : Option Priority) (due : Option Nat) (old : Todo)
    (hold : TodoRepository.get_by_id store todo_id = some old) :
    model_dump_exclude_unset
        (TodoUpdate.from_tool_args title description completed priority due) =
      { title := some title, description := some description,
        priority := some priority, due_date := some due,
        completed := some completed } ∧
    to_kwargs (TodoUpdate.from_tool_args title description completed priority due) =
      { title := some title, description := some description,
        priority := some (priority.map Priority.value), due_date := some due,
        completed := some completed } ∧
    (title = none ∨ completed = none ∨ priority = none →
      TodoService.update_todo store now todo_id
          (TodoUpdate.from_tool_args title description completed priority due) =
        (store, .error (.integrityError "NOT NULL constraint failed"))) ∧
    (∀ tt c p, title = some tt → completed = some c → priority = some p →
      (TodoService.update_todo store now todo_id
          (TodoUpdate.from_tool_args title description completed priority due)).2 =
        .ok { old with
                title := some tt, description := description,
                priority := some p.value, due_date := due,
                completed := some c, updated_at := now }) := by
  have happ : apply_kwargs old
      (to_kwargs (TodoUpdate.from_tool_args title description completed priority due))
      now =
      { old with
          title := title, description := description,
          priority := priority.map Priority.value,
          due_date := due, completed := completed, updated_at := now } := by
    cases priority <;>
      simp [apply_kwargs, to_kwargs, model_dump_exclude_unset,
        TodoUpdate.from_tool_args, convert_priority, Option.map]
  refine ⟨?_, ?_, fun h => ?_, fun tt c p h1 h2 h3 => ?_⟩
  · simp [model_dump_exclude_unset, TodoUpdate.from_tool_args]
  · cases priority <;>
      simp [to_kwargs, model_dump_exclude_unset, TodoUpdate.from_tool_args,
        convert_priority, Option.map]
  · simp only [TodoService.update_todo, TodoRepository.update, hold, happ]
    rcases h with h | h | h <;> simp [h]
  · subst h1
    subst h2
    subst h3
    simp [TodoService.update_todo, TodoRepository.update, hold, happ]

/-- C5 counterexample: the claim says every tool with a priority parameter
coerces an unrecognized priority string back to `"medium"` and proceeds;
but the `list_todos` tool, given the unrecognized priority `"urgent"`,
rejects the call with an `{"error": "Invalid priority..."}` payload and
does not behave like the coerced (`"medium"`) call, which succeeds. -/
theorem c5_list_todos_rejects_counterexample :
    TodoAppService.list_todos [] none (some "urgent") none =
      .error (invalid_priority_message "urgent") ∧
    TodoAppService.list_todos [] none (some "medium") none = .ok [] := by
  exact ⟨rfl, rfl⟩

/-- C5 amended: only the `create_todo` tool coerces an unrecognized
priority string to `"medium"` and proceeds; the `list_todos` and
`update_todo` tools reject a non-empty unrecognized priority with an
`{"error": "Invalid priority..."}` payload without performing the
operation (and treat the empty string as no priority at all). -/
theorem c5_amended_only_create_coerces (p : String)
    (h1 : p ≠ "low") (h2 : p ≠ "medium") (h3 : p ≠ "high") (h0 : p ≠ "") :
    coerce_priority p = "medium" ∧
    (∀ store completed search,
      TodoAppService.list_todos store completed (some p) search =
        .error (invalid_priority_message p)) ∧
    (∀ P store now todo_id title description completed due_date,
      TodoAppService.update_todo P store now todo_id title description completed
          (some p) due_date =
        (store, .error (invalid_priority_message p))) := by
  have hmem : (["low", "medium", "high"].contains p) = false := by
    simp [h1, h2, h3]
  have hfs : Priority.fromString p = none := by
    simp [Priority.fromString, h1, h2, h3]
  have hne : p.isEmpty = false := by
    cases hp : p.isEmpty
    · rfl
    · exact absurd ((String.isEmpty_iff p).mp hp) h0
  refine ⟨?_, fun store completed search => ?_,
    fun P store now todo_id title description completed due_date => ?_⟩
  · rw [coerce_priority, if_neg]
    simp
    exact ⟨h1, h2, h3⟩
  · simp [TodoAppService.list_todos, hne, hfs]
  · simp [TodoAppService.update_todo, hne, hfs]

/-- Witness for the amended C5 at the unrecognized priority `"urgent"`. -/
theorem c5_amended_only_create_coerces_witness :
    coerce_priority "urgent" = "medium" ∧
    TodoAppService.update_todo noParsers [] 0 1 none none none (some "urgent") none =
      ([], .error (invalid_priority_message "urgent")) := by
  have h := c5_amended_only_create_coerces "urgent" (by decide) (by decide)
    (by decide) (by decide)
  exact ⟨h.1, h.2.2 noParsers [] 0 1 none none none none⟩

/-- Witness for C4: through the tool-layer construction, updating only the
title forwards explicit `None`s for the other four fields, so the flush
raises `IntegrityError` on the NOT NULL columns (where PATCH would have
preserved them); supplying title, completed and priority while omitting
the description succeeds and wipes the stored description to `None`. -/
theorem c4_tool_update_forwards_all_fields_witness :
    TodoService.update_todo [witnessTodo] 5 1
        (TodoUpdate.from_tool_args (some "New title") none none none none) =
      ([witnessTodo], .error (.integrityError "NOT NULL constraint failed")) ∧
    (TodoService.update_todo [witnessTodo] 5 1
        (TodoUpdate.from_tool_args (some "New title") none (some true)
          (some .high) none)).2 =
      .ok { witnessTodo with
              title := some "New title", description := none,
              priority := some "high", completed := some true,
              due_date := none, updated_at := 5 } :=
  ⟨(c4_tool_update_forwards_all_fields [witnessTodo] 5 1 (some "New title") none none
      none none witnessTodo (by decide)).2.2.1 (Or.inr (Or.inl rfl)),
   (c4_tool_update_forwards_all_fields [witnessTodo] 5 1 (some "New title") none
      (some true) (some .high) none witnessTodo (by decide)).2.2.2 "New title" true
      .high rfl rfl rfl⟩

/-- Five stored records with distinct creation times (record `i` was
created at time `i`), as the spec's pagination example assumes. -/
def fiveTodo (i : Nat) : Todo :=
  { id := i, title := some ("Todo " ++ toString i), description := none,
    completed := some false, priority := some "medium", due_date := none,
    created_at := i, updated_at := i }

/-- The 5-record store of the pagination example, in insertion order. -/
def fiveStore : List Todo :=
  [fiveTodo 1, fiveTodo 2, fiveTodo 3, fiveTodo 4, fiveTodo 5]

/-- C7: `get_all` returns the pair (page, total) where the page is the
filtered set ordered by creation time most recent first and then cut by
`OFFSET skip LIMIT limit`, while `total` counts the records matching the
filters before pagination (never the page size); the page is ordered by
`created_at` descending and never exceeds `limit` items.  Literally: with
5 records present, `skip=0, limit=2` returns exactly the 2 most recent
records with `total = 5`, and `skip=2, limit=2` returns the disjoint next
page of 2, still with `total = 5`. -/
theorem c7_get_all_pagination :
    (∀ store skip limit search completed priority date_from date_to,
      (TodoRepository.get_all store skip limit search completed priority
          date_from date_to).2 =
        store.countP (matchesFilters search completed priority date_from date_to)) ∧
    (∀ store skip limit search completed priority date_from date_to,
      (TodoRepository.get_all store skip limit search completed priority
          date_from date_to).1 =
        ((List.insertionSort createdDesc
            (store.filter
              (matchesFilters search completed priority date_from date_to))).drop
          skip).take limit) ∧
    (∀ store skip limit search completed priority date_from date_to,
      List.Pairwise createdDesc
        (TodoRepository.get_all store skip limit search completed priority
            date_from date_to).1) ∧
    (∀ store skip limit search completed priority date_from date_to,
      (TodoRepository.get_all store skip limit search completed priority
          date_from date_to).1.length ≤ limit) ∧
    (TodoRepository.get_all fiveStore 0 2 none none none none none =
      ([fiveTodo 5, fiveTodo 4], 5)) ∧
    (TodoRepository.get_all fiveStore 2 2 none none none none none =
      ([fiveTodo 3, fiveTodo 2], 5)) ∧
    (∀ t ∈ (TodoRepository.get_all fiveStore 0 2 none none none none none).1,
      t ∉ (TodoRepository.get_all fiveStore 2 2 none none none none none).1) := by
  refine ⟨?_, ?_, ?_, ?_, by decide, by decide, by decide⟩
  · intro store skip limit search completed priority date_from date_to
    simp [TodoRepository.get_all, List.countP_eq_length_filter]
  · intro store skip limit search completed priority date_from date_to
    rfl
  · intro store skip limit search completed priority date_from date_to
    exact List.Pairwise.sublist
      (List.Sublist.trans (List.take_sublist limit _) (List.drop_sublist skip _))
      (List.sorted_insertionSort createdDesc _)
  · intro store skip limit search completed priority date_from date_to
    exact List.length_take_le limit _

/-- Witness for C7: the most recent record of the first page is not on the
second page. -/
theorem c7_get_all_pagination_witness :
    fiveTodo 5 ∉ (TodoRepository.get_all fiveStore 2 2 none none none none none).1 :=
  c7_get_all_pagination.2.2.2.2.2.2 (fiveTodo 5) (by decide)

/-- The record of the spec's search example: its description is
"Buy groceries and milk". -/
def groceriesTodo : Todo :=
  { id := 7, title := some "Errands", description := some "Buy groceries and milk",
    completed := some false, priority := some "medium", due_date := none,
    created_at := 7, updated_at := 7 }

/-- The record of the wildcard counterexample: its title contains "50" but
not the text "50%", and it has no description. -/
def fiftyTodo : Todo :=
  { id := 8, title := some "Save 50 dollars", description := none,
    completed := some false, priority := some "medium", due_date := none,
    created_at := 8, updated_at := 8 }

/-- `Char.toLower` only moves the ASCII uppercase letters (codes 65–90,
into 97–122), so any character with code below 97 — in particular the SQL
LIKE wildcards `%` (37) and `_` (95) — arises from lower-casing only from
itself. -/
theorem toLower_fixes_low (w c : Char) (hw : w.toNat < 97)
    (h : c.toLower = w) : c = w := by
  rw [Char.toLower] at h
  split at h
  · rename_i hn
    exfalso
    have hv : (c.toNat + 32).isValidChar := by
      left
      omega
    have ht : (Char.ofNat (c.toNat + 32)).toNat = c.toNat + 32 := by
      unfold Char.ofNat
      rw [dif_pos hv]
      rfl
    rw [h] at ht
    omega
  · exact h

/-- Lower-casing cannot introduce a LIKE wildcard the original search
string did not contain. -/
theorem wildcard_not_mem_lowerData (w : Char) (hw : w.toNat < 97) (s : String)
    (h : w ∉ s.data) : w ∉ lowerData s := by
  intro hmem
  obtain ⟨c, hc, hcw⟩ := List.mem_map.mp hmem
  exact h ((toLower_fixes_low w c hw hcw) ▸ hc)

/-- For a wildcard-free pattern core `S`, matching `S ++ ['%']` against a
text is exactly "`S` is a prefix of the text". -/
theorem likeMatch_append_percent :
    ∀ (S : List Char), '%' ∉ S → '_' ∉ S →
      ∀ cs, (likeMatch (S ++ ['%']) cs = true ↔ S <+: cs) := by
  intro S
  induction S with
  | nil =>
    intro _ _ cs
    simp [likeMatch, List.any_eq_true, List.mem_tails, List.isEmpty_iff]
  | cons p S ih =>
    intro h1 h2 cs
    have hp1 : p ≠ '%' := fun hp => h1 (hp ▸ List.mem_cons_self p S)
    have hp2 : p ≠ '_' := fun hp => h2 (hp ▸ List.mem_cons_self p S)
    have h1' : '%' ∉ S := fun hm => h1 (List.mem_cons_of_mem p hm)
    have h2' : '_' ∉ S := fun hm => h2 (List.mem_cons_of_mem p hm)
    cases cs with
    | nil => simp [likeMatch, hp1]
    | cons c cs' =>
      simp [likeMatch, hp1, hp2, ih h1' h2', List.cons_prefix_cons]

/-- For a wildcard-free search core `S`, the pattern `%S%` matches a text
exactly when `S` occurs in it as a contiguous substring. -/
theorem likeMatch_infix (S : List Char) (h1 : '%' ∉ S) (h2 : '_' ∉ S)
    (cs : List Char) :
    (likeMatch ('%' :: (S ++ ['%'])) cs = true ↔ S <:+: cs) := by
  have hstep : likeMatch ('%' :: (S ++ ['%'])) cs =
      cs.tails.any (fun suf => likeMatch (S ++ ['%']) suf) := by
    simp [likeMatch]
  rw [hstep, List.any_eq_true]
  constructor
  · rintro ⟨t, ht, hm⟩
    rw [List.mem_tails t cs] at ht
    exact List.infix_iff_prefix_suffix.mpr
      ⟨t, (likeMatch_append_percent S h1 h2 t).mp hm, ht⟩
  · intro h
    obtain ⟨t, hpre, hsuf⟩ := List.infix_iff_prefix_suffix.mp h
    exact ⟨t, (List.mem_tails t cs).mpr hsuf,
      (likeMatch_append_percent S h1 h2 t).mpr hpre⟩

/-- With a wildcard-free search string, `ilike` is exactly case-insensitive
substring containment (the reading the original claim asserts for every
string). -/
theorem ilike_eq_substring (s f : String) (h1 : '%' ∉ lowerData s)
    (h2 : '_' ∉ lowerData s) :
    (ilike (some f) s = true ↔ lowerData s <:+: lowerData f) :=
  likeMatch_infix (lowerData s) h1 h2 (lowerData f)

/-- C8 counterexample: the claim reads the search filter as selecting
exactly the case-insensitive substring matches for *every* non-empty
search string; but the code interpolates the string unescaped into the
LIKE pattern, so `%` acts as a wildcard there: searching "50%" returns the
record titled "Save 50 dollars" although "50%" occurs in neither its title
(shown) nor its description (`None`). -/
theorem c8_wildcard_counterexample :
    (TodoRepository.get_all [fiftyTodo] 0 100 (some "50%") none none none none).1 =
      [fiftyTodo] ∧
    ¬ (lowerData "50%" <:+: lowerData "Save 50 dollars") ∧
    fiftyTodo.title = some "Save 50 dollars" ∧
    fiftyTodo.description = none := by
  exact ⟨by decide, by decide, rfl, rfl⟩

/-- C8 (amended): for every non-empty search string free of the SQL LIKE
wildcards `%` and `_`, the `search` filter of `get_all` selects exactly
the records in which the string occurs case-insensitively as a substring
of the title OR of the description (a record with neither title nor
description never matches); the five filters combine by logical AND (the
full filter equals the conjunction of the five one-filter runs); the
`due_date` bounds are inclusive on both sides; and the literal example —
description "Buy groceries and milk" matched by "groceries" and by
"GROCERIES" — holds.  (A search string containing `%` or `_` is
interpolated unescaped and those characters act as wildcards: see the
counterexample.) -/
theorem c8_search_filter_wildcard_free :
    (∀ s f, '%' ∉ s.data → '_' ∉ s.data →
      (ilike (some f) s = true ↔ lowerData s <:+: lowerData f)) ∧
    (∀ s, ilike none s = false) ∧
    (∀ s t, s.isEmpty = false → '%' ∉ s.data → '_' ∉ s.data →
      (matchesFilters (some s) none none none none t = true ↔
        (∃ f, t.title = some f ∧ lowerData s <:+: lowerData f) ∨
        (∃ f, t.description = some f ∧ lowerData s <:+: lowerData f))) ∧
    (∀ search completed priority date_from date_to t,
      matchesFilters search completed priority date_from date_to t =
        (matchesFilters search none none none none t &&
         matchesFilters none completed none none none t &&
         matchesFilters none none priority none none t &&
         matchesFilters none none none date_from none t &&
         matchesFilters none none none none date_to t)) ∧
    (∀ date_from date_to t d, t.due_date = some d →
      matchesFilters none none none (some date_from) (some date_to) t =
        (decide (date_from ≤ d) && decide (d ≤ date_to))) ∧
    (matchesFilters (some "groceries") none none none none groceriesTodo = true) ∧
    (matchesFilters (some "GROCERIES") none none none none groceriesTodo = true) ∧
    ((TodoRepository.get_all [groceriesTodo] 0 100 (some "GROCERIES") none none
        none none).1 = [groceriesTodo]) := by
  refine ⟨?_, fun s => rfl, ?_, ?_, ?_, by decide, by decide, by decide⟩
  · intro s f h1 h2
    exact ilike_eq_substring s f
      (wildcard_not_mem_lowerData '%' (by decide) s h1)
      (wildcard_not_mem_lowerData '_' (by decide) s h2)
  · intro s t hs h1 h2
    have hi : ∀ f, ilike (some f) s = true ↔ lowerData s <:+: lowerData f :=
      fun f => ilike_eq_substring s f
        (wildcard_not_mem_lowerData '%' (by decide) s h1)
        (wildcard_not_mem_lowerData '_' (by decide) s h2)
    have hnone : ilike none s = false := rfl
    cases ht : t.title <;> cases hd : t.description <;>
      simp [matchesFilters, hs, ht, hd, hi, hnone]
  · intro search completed priority date_from date_to t
    simp only [matchesFilters]
    cases search <;> cases completed <;> cases priority <;> cases date_from <;>
      cases date_to <;> simp
  · intro date_from date_to t d hd
    simp [matchesFilters, hd]

/-- Witness for the amended C8: the search-characterization applied to the
literal example — "GROCERIES" is wildcard-free and matches via the
description. -/
theorem c8_search_filter_wildcard_free_witness :
    matchesFilters (some "GROCERIES") none none none none groceriesTodo = true :=
  (c8_search_filter_wildcard_free.2.2.1 "GROCERIES" groceriesTodo (by decide)
      (by decide) (by decide)).mpr
    (Or.inr ⟨"Buy groceries and milk", by decide, by decide⟩)

/-- Writing back a replacement row with the looked-up key: a subsequent
`get_by_id` on that key sees exactly the replacement. -/
theorem get_by_id_replaceById (store : List Todo) (todo_id : Nat) (t' : Todo)
    (h : (TodoRepository.get_by_id store todo_id).isSome = true)
    (h' : t'.id = todo_id) :
    TodoRepository.get_by_id (replaceById store todo_id t') todo_id = some t' := by
  induction store with
  | nil => simp [TodoRepository.get_by_id] at h
  | cons a l ih =>
    by_cases ha : a.id = todo_id
    · have hb' : (t'.id == todo_id) = true := by simp [h']
      have hrepl : replaceById (a :: l) todo_id t' = t' :: replaceById l todo_id t' := by
        simp [replaceById, ha]
      rw [TodoRepository.get_by_id, hrepl]
      simp only [List.find?]
      simp [hb']
    · have hb : (a.id == todo_id) = false := by simp [ha]
      have hrepl : replaceById (a :: l) todo_id t' = a :: replaceById l todo_id t' := by
        simp [replaceById, ha]
      have hh : (TodoRepository.get_by_id l todo_id).isSome = true := by
        rw [TodoRepository.get_by_id] at h
        simp only [List.find?] at h
        rw [hb] at h
        exact h
      rw [TodoRepository.get_by_id, hrepl]
      simp only [List.find?]
      rw [hb]
      exact ih hh

/-- C9: `toggle_complete` is an involution on the `completed` field.  For
any id present in the store with a proper boolean `completed` value `b`,
the first toggle succeeds and yields `!b`, and — with no intervening
mutation — a second toggle on the resulting store yields `b` again. -/
theorem c9_toggle_involution (store : List Todo) (now1 now2 todo_id : Nat)
    (t0 : Todo) (b : Bool)
    (h : TodoRepository.get_by_id store todo_id = some t0)
    (hb : t0.completed = some b) :
    ∃ s1 t1 s2 t2,
      TodoRepository.toggle_complete store now1 todo_id = (s1, some t1) ∧
      t1.completed = some (!b) ∧
      TodoRepository.toggle_complete s1 now2 todo_id = (s2, some t2) ∧
      t2.completed = some b := by
  have hid : t0.id = todo_id := by
    have hfind := List.find?_some h
    simpa using hfind
  have h1 : TodoRepository.toggle_complete store now1 todo_id =
      (replaceById store todo_id { t0 with completed := some (!b), updated_at := now1 },
       some { t0 with completed := some (!b), updated_at := now1 }) := by
    simp [TodoRepository.toggle_complete, h, hb, pyNot]
  have hget : TodoRepository.get_by_id
      (replaceById store todo_id { t0 with completed := some (!b), updated_at := now1 })
      todo_id = some { t0 with completed := some (!b), updated_at := now1 } :=
    get_by_id_replaceById store todo_id _ (by simp [h]) hid
  have h2 : TodoRepository.toggle_complete
      (replaceById store todo_id { t0 with completed := some (!b), updated_at := now1 })
      now2 todo_id =
      (replaceById
        (replaceById store todo_id { t0 with completed := some (!b), updated_at := now1 })
        todo_id { t0 with completed := some b, updated_at := now2 },
       some { t0 with completed := some b, updated_at := now2 }) := by
    simp [TodoRepository.toggle_complete, hget, pyNot]
  exact ⟨_, _, _, _, h1, rfl, h2, rfl⟩

/-- Witness for C9 at the spec's literal: a record starting with
`completed = false` reads `true` after one toggle and `false` after the
second. -/
theorem c9_toggle_involution_witness :
    ∃ s1 t1 s2 t2,
      TodoRepository.toggle_complete [witnessTodo] 2 1 = (s1, some t1) ∧
      t1.completed = some true ∧
      TodoRepository.toggle_complete s1 3 1 = (s2, some t2) ∧
      t2.completed = some false :=
  c9_toggle_involution [witnessTodo] 2 3 1 witnessTodo false (by decide) (by decide)

/-- C10: the tool layer's due-date handling.  For every supplied (truthy)
date string, the parsed value is exactly the ordered fallback chain
"strict ISO parse of the string with `Z` normalized, else format
`%Y-%m-%d`, else format `%Y-%m-%d %H:%M:%S`"; and when all three attempts
fail, both `create_todo` and `update_todo` behave exactly as if no due
date had been supplied — the due date is left absent and no failure is
signalled to the caller. -/
theorem c10_due_date_fallback_chain (P : DateParsers) (s : String)
    (hs : s.isEmpty = false) :
    parse_due_date P (some s) =
      ((P.fromisoformat (s.replace "Z" "+00:00")).orElse (fun _ =>
        (P.strptime_date s).orElse (fun _ => P.strptime_datetime s))) ∧
    (P.fromisoformat (s.replace "Z" "+00:00") = none →
      P.strptime_date s = none → P.strptime_datetime s = none →
      parse_due_date P (some s) = none ∧
      (∀ store title description priority,
        TodoAppService.create_todo P store title description priority (some s) =
          TodoAppService.create_todo P store title description priority none) ∧
      (∀ store now todo_id title description completed priority,
        TodoAppService.update_todo P store now todo_id title description completed
            priority (some s) =
          TodoAppService.update_todo P store now todo_id title description completed
            priority none)) := by
  constructor
  · cases h1 : P.fromisoformat (s.replace "Z" "+00:00") <;>
      cases h2 : P.strptime_date s <;> cases h3 : P.strptime_datetime s <;>
      simp [parse_due_date, hs, h1, h2, h3, Option.orElse]
  · intro h1 h2 h3
    have hp : parse_due_date P (some s) = none := by
      simp [parse_due_date, hs, h1, h2, h3]
    have hp' : parse_due_date P (some s) = parse_due_date P none := by
      rw [hp]
      rfl
    refine ⟨hp, fun store title description priority => ?_,
      fun store now todo_id title description completed priority => ?_⟩
    · rw [TodoAppService.create_todo, TodoAppService.create_todo, hp']
    · rcases priority with _ | p <;> simp only [TodoAppService.update_todo, hp']

/-- Witness for C10: with every parse strategy failing on the concrete
string "not-a-date", the parsed due date is absent and the update tool
call is indistinguishable from one without a due date. -/
theorem c10_due_date_fallback_chain_witness :
    parse_due_date noParsers (some "not-a-date") = none ∧
    TodoAppService.update_todo noParsers [witnessTodo] 9 1 none none none none
        (some "not-a-date") =
      TodoAppService.update_todo noParsers [witnessTodo] 9 1 none none none none
        none := by
  have h := (c10_due_date_fallback_chain noParsers "not-a-date" (by decide)).2
    rfl rfl rfl
  exact ⟨h.1, h.2.2 [witnessTodo] 9 1 none none none none⟩
